import Mathlib

/-!
Verification of `src/backend/scraper.py` (recipe-reaper).

The script scrapes a recipe URL with a browser-impersonating HTTP client
(`cloudscraper`), parses the body with the `recipe_scrapers` library
(`scrape_html`), builds a flat JSON mapping of recipe fields (twelve
mandatory fields, eight individually-guarded optional fields), and prints
one line of JSON (`ensure_ascii=False`).

External collaborators (cloudscraper, recipe_scrapers) are opaque; they are
modelled as an environment of functions that either return a value or raise
(`Except String`, the error string standing for `str(exception)`).
-/

/-- A JSON value, the codomain of the serialized result mapping and the
type of values the opaque extraction library hands back. -/
inductive JValue where
  | null
  | bool (b : Bool)
  | str (s : String)
  | num (n : Int)
  | arr (xs : List JValue)
  | obj (kvs : List (String × JValue))

/-- The browser identity passed to `cloudscraper.create_scraper` in
`scrape_recipe` (scraper.py lines 24-30). -/
structure Browser where
  browser : String
  platform : String
  desktop : Bool
deriving DecidableEq, Repr

/-- An HTTP response as seen by the script: `status_code`, decoded `text`,
and the `reason` phrase used in the error message of `raise_for_status`. -/
structure HttpResponse where
  status_code : Nat
  text : String
  reason : String
deriving DecidableEq, Repr

/-- `requests.Response.raise_for_status` (called at scraper.py line 34):
raises an `HTTPError` whose message carries the status code when the
status indicates failure (4xx or 5xx), otherwise returns. -/
def raise_for_status (r : HttpResponse) : Except String Unit :=
  if 400 ≤ r.status_code ∧ r.status_code < 600 then
    Except.error (toString r.status_code ++ " Error: " ++ r.reason ++ " for url")
  else
    Except.ok ()

/-- The scraper handle returned by the extraction library: each accessor
method either returns a JSON-representable value or raises. -/
structure Scraper where
  title : Except String JValue
  description : Except String JValue
  ingredients : Except String JValue
  instructions : Except String JValue
  image : Except String JValue
  author : Except String JValue
  host : Except String JValue
  canonical_url : Except String JValue
  language : Except String JValue
  site_name : Except String JValue
  yields : Except String JValue
  total_time : Except String JValue
  prep_time : Except String JValue
  cook_time : Except String JValue
  category : Except String JValue
  cuisine : Except String JValue
  ratings : Except String JValue
  ratings_count : Except String JValue
  nutrients : Except String JValue

/-- An HTTP session produced by `cloudscraper.create_scraper`: exposes
`get(url, timeout)`. -/
structure Session where
  get : String → Nat → Except String HttpResponse

/-- The opaque collaborators of the script, as an environment:
`create_scraper` (cloudscraper), `scrape_html` (recipe_scrapers, taking
html, url, supported_only), and `scrape_me`, the library's URL-based
constructor used by the direct-fetch variant described in the spec. -/
structure Env where
  create_scraper : Browser → Except String Session
  scrape_html : String → String → Bool → Except String Scraper
  scrape_me : String → Except String Scraper

/-- Externally observable calls made by `scrape_recipe` on its
collaborators, in order. -/
inductive Event where
  | create_scraper (b : Browser)
  | http_get (url : String) (timeout : Nat)
  | scrape_html_call (html : String) (url : String) (supported_only : Bool)
deriving DecidableEq, Repr

/-- The browser identity hard-coded at scraper.py lines 25-29. -/
def chromeWindowsDesktop : Browser :=
  { browser := "chrome", platform := "windows", desktop := true }

/-- Lines 24-37 of scraper.py: create the cloudscraper session, GET the
url with timeout 15, `raise_for_status`, and hand the body text plus the
url to `scrape_html` with `supported_only=False`.  Returns the scraper
handle (or the first exception) together with the trace of collaborator
calls actually issued. -/
def fetch_and_parse (env : Env) (url : String) :
    Except String Scraper × List Event :=
  match env.create_scraper chromeWindowsDesktop with
  | Except.error e => (Except.error e, [Event.create_scraper chromeWindowsDesktop])
  | Except.ok session =>
    match session.get url 15 with
    | Except.error e =>
        (Except.error e,
         [Event.create_scraper chromeWindowsDesktop, Event.http_get url 15])
    | Except.ok response =>
      match raise_for_status response with
      | Except.error e =>
          (Except.error e,
           [Event.create_scraper chromeWindowsDesktop, Event.http_get url 15])
      | Except.ok _ =>
          (env.scrape_html response.text url false,
           [Event.create_scraper chromeWindowsDesktop, Event.http_get url 15,
            Event.scrape_html_call response.text url false])

/-- A bare `try: ... except: ... = None` guard around one optional
accessor (scraper.py lines 56-97): the value on success, `None` on any
exception. -/
def tryOptional (x : Except String JValue) : JValue :=
  match x with
  | Except.ok v => v
  | Except.error _ => JValue.null

/-- Lines 40-97 of scraper.py: build the result dict.  The twelve
mandatory entries (eleven accessor calls plus `sourceUrl`, echoed from the
input) are unguarded, so the first accessor exception propagates; the
eight optional entries are each individually guarded. -/
def extract_fields (s : Scraper) (url : String) :
    Except String (List (String × JValue)) := do
  let name ← s.title
  let description ← s.description
  let ingredients ← s.ingredients
  let instructions ← s.instructions
  let image ← s.image
  let author ← s.author
  let host ← s.host
  let canonical_url ← s.canonical_url
  let language ← s.language
  let site_name ← s.site_name
  let yields ← s.yields
  return [("name", name), ("description", description),
    ("ingredients", ingredients), ("instructions", instructions),
    ("image", image), ("sourceUrl", JValue.str url), ("author", author),
    ("host", host), ("canonical_url", canonical_url),
    ("language", language), ("site_name", site_name), ("yields", yields),
    ("totalTimeMinutes", tryOptional s.total_time),
    ("prepTimeMinutes", tryOptional s.prep_time),
    ("cookTimeMinutes", tryOptional s.cook_time),
    ("category", tryOptional s.category),
    ("cuisine", tryOptional s.cuisine),
    ("ratings", tryOptional s.ratings),
    ("ratings_count", tryOptional s.ratings_count),
    ("nutrients", tryOptional s.nutrients)]

/-- The body of the outer `try` of `scrape_recipe`, as a single fallible
computation: fetch-and-parse, then the field extraction. -/
def pipeline_result (env : Env) (url : String) :
    Except String (List (String × JValue)) :=
  match (fetch_and_parse env url).1 with
  | Except.error e => Except.error e
  | Except.ok s => extract_fields s url

/-- `scrape_recipe` (scraper.py lines 12-105) together with the trace of
collaborator calls: on any exception in the unguarded part the result is
the two-entry error mapping `{error: str(e), url: url}`. -/
def scrape_recipe_traced (env : Env) (url : String) :
    List (String × JValue) × List Event :=
  match fetch_and_parse env url with
  | (Except.error e, tr) =>
      ([("error", JValue.str e), ("url", JValue.str url)], tr)
  | (Except.ok s, tr) =>
    match extract_fields s url with
    | Except.error e =>
        ([("error", JValue.str e), ("url", JValue.str url)], tr)
    | Except.ok data => (data, tr)

/-- `scrape_recipe(url)`: the returned mapping. -/
def scrape_recipe (env : Env) (url : String) : List (String × JValue) :=
  (scrape_recipe_traced env url).1

/-- Modelled from the spec: variant A (direct fetch), absent from src/.
"delegate fetch-and-parse to the extraction library's URL-based
constructor; if construction itself throws, the whole operation is
considered failed and the mapping degrades to `{error, url}`", converging
on the same field-extraction logic. -/
def scrape_recipe_direct (env : Env) (url : String) : List (String × JValue) :=
  match env.scrape_me url with
  | Except.error e => [("error", JValue.str e), ("url", JValue.str url)]
  | Except.ok s =>
    match extract_fields s url with
    | Except.error e => [("error", JValue.str e), ("url", JValue.str url)]
    | Except.ok data => data

/-- The decimal digit character for `n % 10`, used when rendering an
integer. -/
def digitChar (n : Nat) : Char :=
  if n % 10 = 0 then '0' else if n % 10 = 1 then '1'
  else if n % 10 = 2 then '2' else if n % 10 = 3 then '3'
  else if n % 10 = 4 then '4' else if n % 10 = 5 then '5'
  else if n % 10 = 6 then '6' else if n % 10 = 7 then '7'
  else if n % 10 = 8 then '8' else '9'

/-- Decimal digits of a natural number, most significant first, prepended
to `acc` (the rendering `json.dumps` uses for Python ints). -/
def natChars (n : Nat) (acc : List Char) : List Char :=
  if h : n < 10 then digitChar n :: acc
  else natChars (n / 10) (digitChar (n % 10) :: acc)
termination_by n
decreasing_by
  exact Nat.div_lt_self (Nat.lt_of_lt_of_le (by norm_num) (Nat.le_of_not_lt h)) (by norm_num)

/-- Decimal rendering of an integer, as Python `repr` / `json.dumps`. -/
def intChars (n : Int) : List Char :=
  if n < 0 then '-' :: natChars n.natAbs [] else natChars n.natAbs []

/-- One hexadecimal digit (lower case) for `n % 16`, for `\uXXXX`
escapes. -/
def hexDigit (n : Nat) : Char :=
  if n % 16 = 0 then '0' else if n % 16 = 1 then '1'
  else if n % 16 = 2 then '2' else if n % 16 = 3 then '3'
  else if n % 16 = 4 then '4' else if n % 16 = 5 then '5'
  else if n % 16 = 6 then '6' else if n % 16 = 7 then '7'
  else if n % 16 = 8 then '8' else if n % 16 = 9 then '9'
  else if n % 16 = 10 then 'a' else if n % 16 = 11 then 'b'
  else if n % 16 = 12 then 'c' else if n % 16 = 13 then 'd'
  else if n % 16 = 14 then 'e' else 'f'

/-- How `json.dumps(..., ensure_ascii=False)` renders one character
inside a string literal: `"` and `\` are escaped, control characters
below 0x20 are escaped (`\b \t \n \f \r` or `\u00xx`), and every other
character - non-ASCII included - is emitted literally. -/
def jsonEscapeChar (c : Char) : List Char :=
  if c = '"' then ['\\', '"']
  else if c = '\\' then ['\\', '\\']
  else if c = '\n' then ['\\', 'n']
  else if c = '\t' then ['\\', 't']
  else if c = '\r' then ['\\', 'r']
  else if c.toNat = 8 then ['\\', 'b']
  else if c.toNat = 12 then ['\\', 'f']
  else if c.toNat < 32 then
    ['\\', 'u', '0', '0', hexDigit (c.toNat / 16), hexDigit (c.toNat % 16)]
  else [c]

/-- A JSON string literal: quotes around the escaped characters. -/
def jsonString (s : String) : List Char :=
  '"' :: (s.data.flatMap jsonEscapeChar) ++ ['"']

mutual
/-- `json.dumps(v, ensure_ascii=False)` with the default separators
`", "` and `": "` and no indent, as a character list. -/
def dumpVal : JValue → List Char
  | JValue.null => ['n', 'u', 'l', 'l']
  | JValue.bool true => ['t', 'r', 'u', 'e']
  | JValue.bool false => ['f', 'a', 'l', 's', 'e']
  | JValue.str s => jsonString s
  | JValue.num n => intChars n
  | JValue.arr xs => '[' :: dumpArr xs ++ [']']
  | JValue.obj kvs => '\x7b' :: dumpObj kvs ++ ['\x7d']

/-- Array elements joined by `", "`. -/
def dumpArr : List JValue → List Char
  | [] => []
  | [x] => dumpVal x
  | x :: y :: xs => dumpVal x ++ [',', ' '] ++ dumpArr (y :: xs)

/-- Object entries `"key": value` joined by `", "`. -/
def dumpObj : List (String × JValue) → List Char
  | [] => []
  | [kv] => jsonString kv.1 ++ [':', ' '] ++ dumpVal kv.2
  | kv :: kv2 :: kvs =>
      jsonString kv.1 ++ [':', ' '] ++ dumpVal kv.2 ++ [',', ' '] ++ dumpObj (kv2 :: kvs)
end

/-- `json.dumps(result, ensure_ascii=False)` on a result mapping, as the
string printed to standard output (without the trailing newline added by
`print`). -/
def json_dumps (kvs : List (String × JValue)) : String :=
  String.mk (dumpVal (JValue.obj kvs))

/-- `main()` (scraper.py lines 107-115; named `scraper_main` here since
Lean reserves `main`), modelled on the list of
command-line arguments after the program name: returns the line printed
to standard output and the process exit status.  With a wrong argument
count it prints the usage error object and exits 1 (the usage message is
pure ASCII, so `ensure_ascii=True` and `ensure_ascii=False` agree on it);
otherwise it prints the serialized scrape result and exits 0. -/
def scraper_main (env : Env) (args : List String) : String × Nat :=
  if args.length ≠ 1 then
    (json_dumps [("error", JValue.str "Usage: python scraper.py <url>")], 1)
  else
    (json_dumps (scrape_recipe env (args.headD "")), 0)

/-- The twelve mandatory keys of a success mapping, in insertion order
(scraper.py lines 40-53). -/
def mandatoryKeys : List String :=
  ["name", "description", "ingredients", "instructions", "image", "sourceUrl",
   "author", "host", "canonical_url", "language", "site_name", "yields"]

/-- The individually-guarded optional keys, in insertion order
(scraper.py lines 56-97). -/
def optionalKeys : List String :=
  ["totalTimeMinutes", "prepTimeMinutes", "cookTimeMinutes", "category",
   "cuisine", "ratings", "ratings_count", "nutrients"]

/-- All keys of a success mapping, in insertion order. -/
def allKeys : List String := mandatoryKeys ++ optionalKeys

/-- Every unguarded (mandatory) accessor call of `scrape_recipe`
returns without raising. -/
def mandatory_ok (s : Scraper) : Bool :=
  s.title.isOk && s.description.isOk && s.ingredients.isOk &&
  s.instructions.isOk && s.image.isOk && s.author.isOk && s.host.isOk &&
  s.canonical_url.isOk && s.language.isOk && s.site_name.isOk && s.yields.isOk

/-- The success mapping of `scrape_recipe`, written with `tryOptional` on
every accessor: it agrees with `extract_fields` exactly when every
mandatory accessor succeeds. -/
def successData (s : Scraper) (url : String) : List (String × JValue) :=
  [("name", tryOptional s.title), ("description", tryOptional s.description),
   ("ingredients", tryOptional s.ingredients),
   ("instructions", tryOptional s.instructions),
   ("image", tryOptional s.image), ("sourceUrl", JValue.str url),
   ("author", tryOptional s.author), ("host", tryOptional s.host),
   ("canonical_url", tryOptional s.canonical_url),
   ("language", tryOptional s.language),
   ("site_name", tryOptional s.site_name), ("yields", tryOptional s.yields),
   ("totalTimeMinutes", tryOptional s.total_time),
   ("prepTimeMinutes", tryOptional s.prep_time),
   ("cookTimeMinutes", tryOptional s.cook_time),
   ("category", tryOptional s.category),
   ("cuisine", tryOptional s.cuisine),
   ("ratings", tryOptional s.ratings),
   ("ratings_count", tryOptional s.ratings_count),
   ("nutrients", tryOptional s.nutrients)]

/-- An index for the eight individually-guarded optional accessors. -/
inductive OptField where
  | total_time
  | prep_time
  | cook_time
  | category
  | cuisine
  | ratings
  | ratings_count
  | nutrients
deriving DecidableEq, Repr

/-- The result key an optional accessor populates. -/
def OptField.key : OptField → String
  | OptField.total_time => "totalTimeMinutes"
  | OptField.prep_time => "prepTimeMinutes"
  | OptField.cook_time => "cookTimeMinutes"
  | OptField.category => "category"
  | OptField.cuisine => "cuisine"
  | OptField.ratings => "ratings"
  | OptField.ratings_count => "ratings_count"
  | OptField.nutrients => "nutrients"

/-- The accessor an optional field index denotes. -/
def OptField.acc : OptField → Scraper → Except String JValue
  | OptField.total_time, s => s.total_time
  | OptField.prep_time, s => s.prep_time
  | OptField.cook_time, s => s.cook_time
  | OptField.category, s => s.category
  | OptField.cuisine, s => s.cuisine
  | OptField.ratings, s => s.ratings
  | OptField.ratings_count, s => s.ratings_count
  | OptField.nutrients, s => s.nutrients

/-- Replace one optional accessor of a scraper handle (used to state the
counterfactual "had that accessor not raised"). -/
def setOpt (s : Scraper) : OptField → Except String JValue → Scraper
  | OptField.total_time, x => { s with total_time := x }
  | OptField.prep_time, x => { s with prep_time := x }
  | OptField.cook_time, x => { s with cook_time := x }
  | OptField.category, x => { s with category := x }
  | OptField.cuisine, x => { s with cuisine := x }
  | OptField.ratings, x => { s with ratings := x }
  | OptField.ratings_count, x => { s with ratings_count := x }
  | OptField.nutrients, x => { s with nutrients := x }

/-- Whether a trace event is an HTTP GET. -/
def Event.isGet : Event → Bool
  | Event.http_get _ _ => true
  | _ => false

/-- A concrete scraper handle on which every mandatory accessor succeeds
and two optional accessors raise. -/
def okScraper : Scraper :=
  { title := Except.ok (JValue.str "T"),
    description := Except.ok (JValue.str "D"),
    ingredients := Except.ok (JValue.arr [JValue.str "i1", JValue.str "i2"]),
    instructions := Except.ok (JValue.str "I"),
    image := Except.ok (JValue.str "img"),
    author := Except.ok (JValue.str "A"),
    host := Except.ok (JValue.str "h"),
    canonical_url := Except.ok (JValue.str "c"),
    language := Except.ok (JValue.str "en"),
    site_name := Except.ok (JValue.str "S"),
    yields := Except.ok (JValue.str "4 servings"),
    total_time := Except.ok (JValue.num 30),
    prep_time := Except.error "no prep",
    cook_time := Except.ok (JValue.num 20),
    category := Except.ok (JValue.str "dinner"),
    cuisine := Except.error "no cuisine",
    ratings := Except.ok (JValue.num 5),
    ratings_count := Except.ok (JValue.num 10),
    nutrients := Except.ok (JValue.obj [("calories", JValue.str "100 kcal")]) }

/-- A concrete environment whose fetch succeeds with status 200 and whose
parse yields `okScraper`. -/
def envOk : Env :=
  { create_scraper := fun _ => Except.ok
      { get := fun _ _ => Except.ok
          { status_code := 200, text := "<html>", reason := "OK" } },
    scrape_html := fun _ _ _ => Except.ok okScraper,
    scrape_me := fun _ => Except.ok okScraper }

/-- A concrete environment whose HTTP-client construction raises. -/
def envBoom : Env :=
  { create_scraper := fun _ => Except.error "boom",
    scrape_html := fun _ _ _ => Except.error "unreached",
    scrape_me := fun _ => Except.error "unreached" }

/-- A concrete environment whose construction raises with a non-ASCII
message. -/
def envAccent : Env :=
  { create_scraper := fun _ => Except.error "Café failed",
    scrape_html := fun _ _ _ => Except.error "unreached",
    scrape_me := fun _ => Except.error "unreached" }

lemma isOk_exists {x : Except String JValue} (h : x.isOk = true) :
    ∃ v, x = Except.ok v := by
  cases x with
  | error e => simp [Except.isOk, Except.toBool] at h
  | ok v => exact ⟨v, rfl⟩

/-- When every mandatory accessor succeeds, `extract_fields` returns the
success mapping. -/
lemma extract_fields_of_ok (s : Scraper) (url : String)
    (h : mandatory_ok s = true) :
    extract_fields s url = Except.ok (successData s url) := by
  unfold mandatory_ok at h
  simp only [Bool.and_eq_true] at h
  obtain ⟨⟨⟨⟨⟨⟨⟨⟨⟨⟨h1, h2⟩, h3⟩, h4⟩, h5⟩, h6⟩, h7⟩, h8⟩, h9⟩, h10⟩, h11⟩ := h
  obtain ⟨v1, e1⟩ := isOk_exists h1
  obtain ⟨v2, e2⟩ := isOk_exists h2
  obtain ⟨v3, e3⟩ := isOk_exists h3
  obtain ⟨v4, e4⟩ := isOk_exists h4
  obtain ⟨v5, e5⟩ := isOk_exists h5
  obtain ⟨v6, e6⟩ := isOk_exists h6
  obtain ⟨v7, e7⟩ := isOk_exists h7
  obtain ⟨v8, e8⟩ := isOk_exists h8
  obtain ⟨v9, e9⟩ := isOk_exists h9
  obtain ⟨v10, e10⟩ := isOk_exists h10
  obtain ⟨v11, e11⟩ := isOk_exists h11
  simp [extract_fields, successData, tryOptional, Bind.bind, Except.bind, Pure.pure, Except.pure,
    e1, e2, e3, e4, e5, e6, e7, e8, e9, e10, e11]

/-- When some mandatory accessor raises, `extract_fields` raises. -/
lemma extract_fields_of_err (s : Scraper) (url : String)
    (h : mandatory_ok s = false) :
    ∃ e, extract_fields s url = Except.error e := by
  unfold extract_fields
  cases c1 : s.title with
  | error e => exact ⟨e, rfl⟩
  | ok v1 =>
  cases c2 : s.description with
  | error e => exact ⟨e, rfl⟩
  | ok v2 =>
  cases c3 : s.ingredients with
  | error e => exact ⟨e, rfl⟩
  | ok v3 =>
  cases c4 : s.instructions with
  | error e => exact ⟨e, rfl⟩
  | ok v4 =>
  cases c5 : s.image with
  | error e => exact ⟨e, rfl⟩
  | ok v5 =>
  cases c6 : s.author with
  | error e => exact ⟨e, rfl⟩
  | ok v6 =>
  cases c7 : s.host with
  | error e => exact ⟨e, rfl⟩
  | ok v7 =>
  cases c8 : s.canonical_url with
  | error e => exact ⟨e, rfl⟩
  | ok v8 =>
  cases c9 : s.language with
  | error e => exact ⟨e, rfl⟩
  | ok v9 =>
  cases c10 : s.site_name with
  | error e => exact ⟨e, rfl⟩
  | ok v10 =>
  cases c11 : s.yields with
  | error e => exact ⟨e, rfl⟩
  | ok v11 =>
  exfalso
  simp [mandatory_ok, c1, c2, c3, c4, c5, c6, c7, c8, c9, c10, c11,
    Except.isOk, Except.toBool] at h

/-- `scrape_recipe` on an exception anywhere in the unguarded part. -/
lemma scrape_recipe_of_error (env : Env) (url : String) (e : String)
    (h : pipeline_result env url = Except.error e) :
    scrape_recipe env url = [("error", JValue.str e), ("url", JValue.str url)] := by
  unfold scrape_recipe scrape_recipe_traced
  unfold pipeline_result at h
  cases hp : fetch_and_parse env url with
  | mk r tr =>
    rw [hp] at h
    cases r with
    | error e2 => simp at h ⊢; simp [h]
    | ok s => simp at h ⊢; simp [h]

/-- `scrape_recipe` when the unguarded part succeeds. -/
lemma scrape_recipe_of_ok (env : Env) (url : String)
    (data : List (String × JValue))
    (h : pipeline_result env url = Except.ok data) :
    scrape_recipe env url = data := by
  unfold scrape_recipe scrape_recipe_traced
  unfold pipeline_result at h
  cases hp : fetch_and_parse env url with
  | mk r tr =>
    rw [hp] at h
    cases r with
    | error e2 => simp at h
    | ok s => simp at h ⊢; simp [h]

/-- The unguarded part succeeds exactly when fetch-and-parse succeeds and
every mandatory accessor succeeds, and then it yields the success
mapping. -/
lemma pipeline_result_ok_iff (env : Env) (url : String)
    (data : List (String × JValue)) :
    pipeline_result env url = Except.ok data ↔
      ∃ s, (fetch_and_parse env url).1 = Except.ok s ∧
        mandatory_ok s = true ∧ data = successData s url := by
  unfold pipeline_result
  cases hr : (fetch_and_parse env url).1 with
  | error e => simp
  | ok s =>
    simp only
    constructor
    · intro h
      refine ⟨s, rfl, ?_, ?_⟩
      · by_contra hm
        obtain ⟨e, he⟩ := extract_fields_of_err s url (by
          cases hmo : mandatory_ok s with
          | false => rfl
          | true => exact absurd hmo hm)
        rw [he] at h
        exact Except.noConfusion h
      · cases hmo : mandatory_ok s with
        | false =>
          obtain ⟨e, he⟩ := extract_fields_of_err s url hmo
          rw [he] at h
          exact Except.noConfusion h
        | true =>
          rw [extract_fields_of_ok s url hmo] at h
          injection h with h
          exact h.symm
    · rintro ⟨s2, hs2, hm2, hd2⟩
      cases hs2
      rw [extract_fields_of_ok s url hm2, hd2]

lemma digitChar_ne_newline (n : Nat) : digitChar n ≠ '\n' := by
  unfold digitChar
  have h : n % 10 < 10 := Nat.mod_lt _ (by norm_num)
  generalize hg : n % 10 = k at h ⊢
  interval_cases k <;> decide

lemma hexDigit_ne_newline (n : Nat) : hexDigit n ≠ '\n' := by
  unfold hexDigit
  have h : n % 16 < 16 := Nat.mod_lt _ (by norm_num)
  generalize hg : n % 16 = k at h ⊢
  interval_cases k <;> decide

lemma natChars_ne_newline (n : Nat) :
    ∀ acc, (∀ c ∈ acc, c ≠ '\n') → ∀ c ∈ natChars n acc, c ≠ '\n' := by
  induction n using Nat.strong_induction_on with
  | _ n ih =>
    intro acc hacc c hc
    rw [natChars] at hc
    by_cases h : n < 10
    · simp only [dif_pos h, List.mem_cons] at hc
      rcases hc with rfl | hc
      · exact digitChar_ne_newline n
      · exact hacc c hc
    · simp only [dif_neg h] at hc
      refine ih (n / 10) (Nat.div_lt_self (by omega) (by norm_num))
        (digitChar (n % 10) :: acc) ?_ c hc
      intro c2 hc2
      rcases List.mem_cons.mp hc2 with rfl | hc2
      · exact digitChar_ne_newline (n % 10)
      · exact hacc c2 hc2

lemma intChars_ne_newline (n : Int) : ∀ c ∈ intChars n, c ≠ '\n' := by
  intro c hc
  unfold intChars at hc
  split_ifs at hc
  · rcases List.mem_cons.mp hc with rfl | hc
    · decide
    · exact natChars_ne_newline n.natAbs [] (by simp) c hc
  · exact natChars_ne_newline n.natAbs [] (by simp) c hc

lemma jsonEscapeChar_ne_newline (c : Char) :
    ∀ c2 ∈ jsonEscapeChar c, c2 ≠ '\n' := by
  intro c2 hc2
  unfold jsonEscapeChar at hc2
  split_ifs at hc2 with h1 h2 h3 h4 h5 h6 h7 h8
  · simp only [List.mem_cons, List.not_mem_nil, or_false] at hc2
    rcases hc2 with rfl | rfl <;> decide
  · simp only [List.mem_cons, List.not_mem_nil, or_false] at hc2
    rcases hc2 with rfl | rfl <;> decide
  · simp only [List.mem_cons, List.not_mem_nil, or_false] at hc2
    rcases hc2 with rfl | rfl <;> decide
  · simp only [List.mem_cons, List.not_mem_nil, or_false] at hc2
    rcases hc2 with rfl | rfl <;> decide
  · simp only [List.mem_cons, List.not_mem_nil, or_false] at hc2
    rcases hc2 with rfl | rfl <;> decide
  · simp only [List.mem_cons, List.not_mem_nil, or_false] at hc2
    rcases hc2 with rfl | rfl <;> decide
  · simp only [List.mem_cons, List.not_mem_nil, or_false] at hc2
    rcases hc2 with rfl | rfl <;> decide
  · simp only [List.mem_cons, List.not_mem_nil, or_false] at hc2
    rcases hc2 with rfl | rfl | rfl | rfl | rfl | rfl
    · decide
    · decide
    · decide
    · decide
    · exact hexDigit_ne_newline (c.toNat / 16)
    · exact hexDigit_ne_newline (c.toNat % 16)
  · simp only [List.mem_cons, List.not_mem_nil, or_false] at hc2
    subst hc2
    intro hceq
    subst hceq
    exact h8 (by decide)

lemma jsonString_ne_newline (s : String) : ∀ c ∈ jsonString s, c ≠ '\n' := by
  intro c hc
  unfold jsonString at hc
  rcases List.mem_cons.mp hc with rfl | hc
  · decide
  · rcases List.mem_append.mp hc with hc | hc
    · obtain ⟨c0, _, hc0⟩ := List.mem_flatMap.mp hc
      exact jsonEscapeChar_ne_newline c0 c hc0
    · have : c = '"' := by simpa using hc
      subst this
      decide

mutual
theorem dumpVal_ne_newline : ∀ (v : JValue), ∀ c ∈ dumpVal v, c ≠ '\n'
  | JValue.null, c, hc => by
      have : c ∈ ['n', 'u', 'l', 'l'] := hc
      fin_cases this <;> decide
  | JValue.bool true, c, hc => by
      have : c ∈ ['t', 'r', 'u', 'e'] := hc
      fin_cases this <;> decide
  | JValue.bool false, c, hc => by
      have : c ∈ ['f', 'a', 'l', 's', 'e'] := hc
      fin_cases this <;> decide
  | JValue.str s, c, hc => jsonString_ne_newline s c hc
  | JValue.num n, c, hc => intChars_ne_newline n c hc
  | JValue.arr xs, c, hc => by
      rcases List.mem_cons.mp hc with rfl | hc
      · decide
      · rcases List.mem_append.mp hc with hc | hc
        · exact dumpArr_ne_newline xs c hc
        · have : c = ']' := by simpa using hc
          subst this
          decide
  | JValue.obj kvs, c, hc => by
      rcases List.mem_cons.mp hc with rfl | hc
      · decide
      · rcases List.mem_append.mp hc with hc | hc
        · exact dumpObj_ne_newline kvs c hc
        · have : c = '\x7d' := by simpa using hc
          subst this
          decide

theorem dumpArr_ne_newline : ∀ (xs : List JValue), ∀ c ∈ dumpArr xs, c ≠ '\n'
  | [], c, hc => by simp [dumpArr] at hc
  | [x], c, hc => dumpVal_ne_newline x c hc
  | x :: y :: xs, c, hc => by
      rcases List.mem_append.mp hc with hc | hc
      · rcases List.mem_append.mp hc with hc | hc
        · exact dumpVal_ne_newline x c hc
        · have : c = ',' ∨ c = ' ' := by simpa using hc
          rcases this with rfl | rfl <;> decide
      · exact dumpArr_ne_newline (y :: xs) c hc

theorem dumpObj_ne_newline :
    ∀ (kvs : List (String × JValue)), ∀ c ∈ dumpObj kvs, c ≠ '\n'
  | [], c, hc => by simp [dumpObj] at hc
  | [kv], c, hc => by
      rcases List.mem_append.mp hc with hc | hc
      · rcases List.mem_append.mp hc with hc | hc
        · exact jsonString_ne_newline kv.1 c hc
        · have : c = ':' ∨ c = ' ' := by simpa using hc
          rcases this with rfl | rfl <;> decide
      · exact dumpVal_ne_newline kv.2 c hc
  | kv :: kv2 :: kvs, c, hc => by
      rcases List.mem_append.mp hc with hc | hc
      · rcases List.mem_append.mp hc with hc | hc
        · rcases List.mem_append.mp hc with hc | hc
          · rcases List.mem_append.mp hc with hc | hc
            · exact jsonString_ne_newline kv.1 c hc
            · have : c = ':' ∨ c = ' ' := by simpa using hc
              rcases this with rfl | rfl <;> decide
          · exact dumpVal_ne_newline kv.2 c hc
        · have : c = ',' ∨ c = ' ' := by simpa using hc
          rcases this with rfl | rfl <;> decide
      · exact dumpObj_ne_newline (kv2 :: kvs) c hc
end

/-- The serialized result mapping is newline-free: one line of output. -/
lemma json_dumps_ne_newline (kvs : List (String × JValue)) :
    ∀ c ∈ (json_dumps kvs).data, c ≠ '\n' :=
  fun c hc => dumpVal_ne_newline (JValue.obj kvs) c hc

/-- C1: for every input URL, if any exception is raised during HTTP-client
construction, the page fetch, the library's HTML-based construction, or a
mandatory-field accessor call (i.e. anywhere in the unguarded part of
`scrape_recipe`), then the result is exactly the mapping
`{error: str(e), url: url}`, with no other keys. -/
theorem C1_error_collapse (env : Env) (url e : String)
    (h : pipeline_result env url = Except.error e) :
    scrape_recipe env url = [("error", JValue.str e), ("url", JValue.str url)] :=
  scrape_recipe_of_error env url e h

/-- Witness for C1 at a concrete environment whose client construction
raises `"boom"`. -/
theorem C1_error_collapse_witness :
    pipeline_result envBoom "http://x" = Except.error "boom" ∧
    scrape_recipe envBoom "http://x" =
      [("error", JValue.str "boom"), ("url", JValue.str "http://x")] :=
  ⟨rfl, C1_error_collapse envBoom "http://x" "boom" rfl⟩

/-- C2: if construction and every mandatory accessor succeed and one
optional accessor raises, then that key is null in the result, all twenty
keys are present, and every other key holds the value it would have had
had that accessor returned a value instead of raising. -/
theorem C2_optional_failure_isolated (env : Env) (url : String) (s : Scraper)
    (f : OptField) (e : String) (v : JValue)
    (hs : (fetch_and_parse env url).1 = Except.ok s)
    (hm : mandatory_ok s = true)
    (hf : OptField.acc f s = Except.error e) :
    (scrape_recipe env url).map Prod.fst = allKeys ∧
    (scrape_recipe env url).lookup (OptField.key f) = some JValue.null ∧
    ∀ k, k ≠ OptField.key f →
      (scrape_recipe env url).lookup k =
        (successData (setOpt s f (Except.ok v)) url).lookup k := by
  have hpr : pipeline_result env url = Except.ok (successData s url) := by
    unfold pipeline_result
    rw [hs]
    exact extract_fields_of_ok s url hm
  rw [scrape_recipe_of_ok env url _ hpr]
  obtain ⟨t1, t2, t3, t4, t5, t6, t7, t8, t9, t10, t11, o1, o2, o3, o4, o5, o6, o7, o8⟩ := s
  refine ⟨by simp [successData, allKeys, mandatoryKeys, optionalKeys], ?_, ?_⟩
  · cases f <;>
      simp_all [successData, OptField.key, OptField.acc, tryOptional, List.lookup]
  · intro k hk
    cases f <;>
      simp only [OptField.key] at hk <;>
      simp [successData, setOpt, List.lookup, beq_eq_false_iff_ne.mpr hk]

/-- Witness for C2: on `envOk` the guarded `prep_time` accessor raises,
its key is null, and the other nineteen keys are unaffected. -/
theorem C2_optional_failure_isolated_witness :
    (fetch_and_parse envOk "http://x").1 = Except.ok okScraper ∧
    mandatory_ok okScraper = true ∧
    OptField.acc OptField.prep_time okScraper = Except.error "no prep" ∧
    ((scrape_recipe envOk "http://x").map Prod.fst = allKeys ∧
     (scrape_recipe envOk "http://x").lookup (OptField.key OptField.prep_time) =
       some JValue.null ∧
     ∀ k, k ≠ OptField.key OptField.prep_time →
       (scrape_recipe envOk "http://x").lookup k =
         (successData (setOpt okScraper OptField.prep_time
             (Except.ok (JValue.num 7))) "http://x").lookup k) :=
  ⟨rfl, rfl, rfl,
   C2_optional_failure_isolated envOk "http://x" okScraper OptField.prep_time
     "no prep" (JValue.num 7) rfl rfl rfl⟩

/-- C3 as stated is false: on a URL where construction and every mandatory
accessor succeed, the result mapping has exactly eight keys beyond the
twelve mandatory ones, not nine. -/
theorem C3_counterexample :
    (fetch_and_parse envOk "http://x").1 = Except.ok okScraper ∧
    mandatory_ok okScraper = true ∧
    (((scrape_recipe envOk "http://x").map Prod.fst).filter
        (fun k => !(mandatoryKeys.contains k))).length = 8 ∧
    (((scrape_recipe envOk "http://x").map Prod.fst).filter
        (fun k => !(mandatoryKeys.contains k))).length ≠ 9 :=
  ⟨rfl, rfl, by decide, by decide⟩

/-- C3 (amended): for every input URL on which construction and all
mandatory accessors succeed, the result mapping contains all twelve
mandatory keys plus all eight optional keys, each optional key holding
either the extracted value or null. -/
theorem C3_success_mapping_keys (env : Env) (url : String) (s : Scraper)
    (hs : (fetch_and_parse env url).1 = Except.ok s)
    (hm : mandatory_ok s = true) :
    (scrape_recipe env url).map Prod.fst = mandatoryKeys ++ optionalKeys ∧
    ∀ f : OptField, (scrape_recipe env url).lookup (OptField.key f) =
      some (tryOptional (OptField.acc f s)) := by
  have hpr : pipeline_result env url = Except.ok (successData s url) := by
    unfold pipeline_result
    rw [hs]
    exact extract_fields_of_ok s url hm
  rw [scrape_recipe_of_ok env url _ hpr]
  constructor
  · simp [successData, mandatoryKeys, optionalKeys]
  · intro f
    cases f <;> simp [successData, OptField.key, OptField.acc, List.lookup]

/-- Witness for the amended C3 at `envOk`. -/
theorem C3_success_mapping_keys_witness :
    (fetch_and_parse envOk "http://x").1 = Except.ok okScraper ∧
    mandatory_ok okScraper = true ∧
    ((scrape_recipe envOk "http://x").map Prod.fst = mandatoryKeys ++ optionalKeys ∧
     ∀ f : OptField, (scrape_recipe envOk "http://x").lookup (OptField.key f) =
       some (tryOptional (OptField.acc f okScraper))) :=
  ⟨rfl, rfl, C3_success_mapping_keys envOk "http://x" okScraper rfl rfl⟩

/-- C4: `scrape_recipe` always constructs the HTTP client with the
simulated browser identity chrome/windows/desktop; every GET in the trace
targets the input URL with timeout 15 and at most one GET is issued (and
exactly one as soon as client construction succeeds); a failure status
(4xx/5xx) aborts with the status error before any parse; otherwise the
response body text and the original URL are passed to `scrape_html` with
`supported_only = false`. -/
theorem C4_prefetch_behavior (env : Env) (url : String) :
    Event.create_scraper chromeWindowsDesktop ∈ (fetch_and_parse env url).2 ∧
    (∀ b, Event.create_scraper b ∈ (fetch_and_parse env url).2 →
      b = chromeWindowsDesktop) ∧
    (∀ u t, Event.http_get u t ∈ (fetch_and_parse env url).2 →
      u = url ∧ t = 15) ∧
    (∀ h u so, Event.scrape_html_call h u so ∈ (fetch_and_parse env url).2 →
      u = url ∧ so = false) ∧
    ((fetch_and_parse env url).2.filter Event.isGet).length ≤ 1 ∧
    (∀ session, env.create_scraper chromeWindowsDesktop = Except.ok session →
      ((fetch_and_parse env url).2.filter Event.isGet).length = 1 ∧
      ∀ r, session.get url 15 = Except.ok r →
        ((400 ≤ r.status_code ∧ r.status_code < 600 →
          (fetch_and_parse env url).1 =
            Except.error (toString r.status_code ++ " Error: " ++
              r.reason ++ " for url") ∧
          ∀ h u so, Event.scrape_html_call h u so ∉ (fetch_and_parse env url).2) ∧
        (¬(400 ≤ r.status_code ∧ r.status_code < 600) →
          (fetch_and_parse env url).1 = env.scrape_html r.text url false ∧
          Event.scrape_html_call r.text url false ∈ (fetch_and_parse env url).2))) := by
  cases hcs : env.create_scraper chromeWindowsDesktop with
  | error e =>
    simp [fetch_and_parse, hcs, Event.isGet]
  | ok session =>
    cases hg : session.get url 15 with
    | error e =>
      simp [fetch_and_parse, hcs, hg, Event.isGet]
    | ok r =>
      by_cases hst : 400 ≤ r.status_code ∧ r.status_code < 600
      · simp [fetch_and_parse, hcs, hg, raise_for_status, hst, Event.isGet]
      · simp [fetch_and_parse, hcs, hg, raise_for_status, hst, Event.isGet]
        push_neg at hst
        exact hst

/-- C5: with an argument count other than one, the program prints a JSON
object whose single key is `error` carrying the usage message, and exits
with a non-zero status. -/
theorem C5_usage_error (env : Env) (args : List String)
    (h : args.length ≠ 1) :
    scraper_main env args =
      ("\x7b\"error\": \"Usage: python scraper.py <url>\"\x7d", 1) ∧
    (scraper_main env args).2 ≠ 0 := by
  have hm : scraper_main env args =
      ("\x7b\"error\": \"Usage: python scraper.py <url>\"\x7d", 1) := by
    unfold scraper_main
    rw [if_pos h]
    exact Prod.ext (by decide) rfl
  exact ⟨hm, by rw [hm]; decide⟩

/-- Witness for C5 at zero arguments. -/
theorem C5_usage_error_witness :
    ([] : List String).length ≠ 1 ∧
    (scraper_main envOk [] =
      ("\x7b\"error\": \"Usage: python scraper.py <url>\"\x7d", 1) ∧
     (scraper_main envOk []).2 ≠ 0) :=
  ⟨by decide, C5_usage_error envOk [] (by decide)⟩

/-- C6: with exactly one argument the process exits with status 0 and
prints exactly one JSON line (the serialized result mapping, success or
error shape alike); scraping failure is never reflected in the exit
code. -/
theorem C6_single_arg_exits_zero (env : Env) (url : String) :
    scraper_main env [url] = (json_dumps (scrape_recipe env url), 0) ∧
    (scraper_main env [url]).2 = 0 ∧
    ∀ c ∈ (scraper_main env [url]).1.data, c ≠ '\n' := by
  have hm : scraper_main env [url] = (json_dumps (scrape_recipe env url), 0) := by
    unfold scraper_main
    simp
  refine ⟨hm, by rw [hm], ?_⟩
  rw [hm]
  exact json_dumps_ne_newline _

/-- C7: the output is one newline-free line of JSON; every character at or
above 0x20 other than the quote and the backslash - in particular every
non-ASCII character - is serialized literally, never as an escape; at a
concrete non-ASCII error message the exact printed line keeps the accented
character. -/
theorem C7_output_single_line_literal (env : Env) (url : String) :
    (∀ c ∈ (scraper_main env [url]).1.data, c ≠ '\n') ∧
    (∀ c : Char, 32 ≤ c.toNat → c ≠ '"' → c ≠ '\\' → jsonEscapeChar c = [c]) ∧
    scraper_main envAccent ["http://x"] =
      ("\x7b\"error\": \"Café failed\", \"url\": \"http://x\"\x7d", 0) := by
  refine ⟨?_, ?_, ?_⟩
  · have hm : scraper_main env [url] = (json_dumps (scrape_recipe env url), 0) := by
      unfold scraper_main
      simp
    rw [hm]
    exact json_dumps_ne_newline _
  · intro c h1 h2 h3
    have hn : c ≠ '\n' := by
      intro hh
      subst hh
      exact absurd h1 (by decide)
    have ht : c ≠ '\t' := by
      intro hh
      subst hh
      exact absurd h1 (by decide)
    have hr : c ≠ '\r' := by
      intro hh
      subst hh
      exact absurd h1 (by decide)
    have h8 : ¬(c.toNat = 8) := by omega
    have h12 : ¬(c.toNat = 12) := by omega
    have h32 : ¬(c.toNat < 32) := by omega
    simp [jsonEscapeChar, h2, h3, hn, ht, hr, h8, h12, h32]
  · exact Prod.ext (by decide) rfl

/-- C8: the direct-fetch variant (library fetches and parses) and the
pre-fetch variant (anti-bot client fetches first) converge on the same
field-extraction logic - whenever their constructions yield the same
scraper handle, they return identical result mappings. -/
theorem C8_variants_converge (env : Env) (url : String) (s : Scraper)
    (hA : env.scrape_me url = Except.ok s)
    (hB : (fetch_and_parse env url).1 = Except.ok s) :
    scrape_recipe_direct env url = scrape_recipe env url := by
  unfold scrape_recipe_direct
  rw [hA]
  unfold scrape_recipe scrape_recipe_traced
  cases hp : fetch_and_parse env url with
  | mk r tr =>
    rw [hp] at hB
    simp only at hB
    subst hB
    cases he : extract_fields s url with
    | error e => simp [he]
    | ok data => simp [he]

/-- Witness for C8 at `envOk`, where both constructions yield
`okScraper`. -/
theorem C8_variants_converge_witness :
    envOk.scrape_me "http://x" = Except.ok okScraper ∧
    (fetch_and_parse envOk "http://x").1 = Except.ok okScraper ∧
    scrape_recipe_direct envOk "http://x" = scrape_recipe envOk "http://x" :=
  ⟨rfl, rfl, C8_variants_converge envOk "http://x" okScraper rfl rfl⟩

/-- C9: the returned mapping always echoes the input URL exactly as given:
under the `sourceUrl` key on success (taken from the input, not from an
accessor) and under the `url` key on failure. -/
theorem C9_url_echoed (env : Env) (url : String) :
    (scrape_recipe env url).lookup
        (if (pipeline_result env url).isOk then "sourceUrl" else "url") =
      some (JValue.str url) := by
  cases hp : pipeline_result env url with
  | error e =>
    rw [scrape_recipe_of_error env url e hp]
    simp [Except.isOk, Except.toBool, List.lookup]
  | ok data =>
    rw [scrape_recipe_of_ok env url data hp]
    obtain ⟨s, hs, hm, hd⟩ := (pipeline_result_ok_iff env url data).mp hp
    subst hd
    simp [Except.isOk, Except.toBool, successData, List.lookup]

/-- C10: `scrape_recipe` is total at its interface - for every environment
and every URL string (no validation is performed) it returns a mapping of
one of exactly two shapes: the two-entry error mapping, or the full
twenty-entry success mapping in which each guarded accessor's exception
has become a null value. -/
theorem C10_total_interface (env : Env) (url : String) :
    (∃ e, pipeline_result env url = Except.error e ∧
      scrape_recipe env url = [("error", JValue.str e), ("url", JValue.str url)]) ∨
    (∃ s, (fetch_and_parse env url).1 = Except.ok s ∧ mandatory_ok s = true ∧
      scrape_recipe env url = successData s url) := by
  cases hp : pipeline_result env url with
  | error e => exact Or.inl ⟨e, rfl, scrape_recipe_of_error env url e hp⟩
  | ok data =>
    obtain ⟨s, hs, hm, hd⟩ := (pipeline_result_ok_iff env url data).mp hp
    exact Or.inr ⟨s, hs, hm, by rw [scrape_recipe_of_ok env url data hp, hd]⟩
